import Mathlib

/-!
Verification of the SveltyCMS launcher scripts (`scripts/dev.ts` and
`scripts/build.ts`) against their specification.

The two scripts are thin CLI wrappers around a task runner.  We embed them
shallowly: the process environment is an explicit record, filesystem calls
(`fs.existsSync`, `fs.mkdtempSync`, `fs.symlinkSync`) are driven by an
oracle record describing how the OS answers each call, filesystem side
effects are collected in an explicit effects record, and the child-process
lifecycle (`error` / `exit` events) is a single event value that determines
how the launcher promise settles.
-/

namespace SveltyCMS

/-- A `NodeJS.ProcessEnv` restricted to the variables the scripts read or
write, plus an opaque association list `rest` for every other variable.
`Option.none` models an unset variable (JS `undefined`). -/
structure Env where
  NODE_OPTIONS : Option String
  NX_TERMINAL_OUTPUT_FORMAT : Option String
  NX_NATIVE_LOGGING : Option String
  PATH : Option String
  FORCE_COLOR : Option String
  rest : List (String × String)
deriving Repr, DecidableEq

/-- How the OS answers the filesystem calls made by one `getEnvWithBunx`
call: `existsBunx dir` is the result of `fs.existsSync(path.join(dir,
'bunx'))` with a thrown error already folded to `false` (the source wraps
the call in `try/catch` returning `false`); `mkdtemp` is `some tmpDir`
when `fs.mkdtempSync` succeeds and `Option.none` when it throws;
`symlinkOk` tells whether `fs.symlinkSync` succeeds. -/
structure FsOracle where
  existsBunx : String → Bool
  mkdtemp : Option String
  symlinkOk : Bool

/-- Observable filesystem side effects of one script run: temporary
directories actually created by `mkdtempSync`, symlinks created (link
path and target), `process.on('exit', ...)` cleanup hooks registered, and
`console.warn` shim-failure warnings printed. -/
structure FsEffects where
  tmpDirsCreated : List String
  symlinksCreated : List (String × String)
  exitHooksRegistered : Nat
  shimWarnings : Nat
deriving Repr, DecidableEq

/-- No filesystem side effect at all. -/
def FsEffects.empty : FsEffects := ⟨[], [], 0, 0⟩

/-- Sequential composition of side effects (first call, then second). -/
def FsEffects.append (a b : FsEffects) : FsEffects :=
  ⟨a.tmpDirsCreated ++ b.tmpDirsCreated,
   a.symlinksCreated ++ b.symlinksCreated,
   a.exitHooksRegistered + b.exitHooksRegistered,
   a.shimWarnings + b.shimWarnings⟩

/-- JS `String.prototype.trim()`: strip whitespace from both ends, modelled
on the character list. -/
def jsTrim (s : String) : String :=
  String.mk (((s.data.dropWhile Char.isWhitespace).reverse.dropWhile
    Char.isWhitespace).reverse)

/-- JS `str.split(sep)` for a one-character separator, on character lists:
`''.split(':') = ['']`, `'a:b'.split(':') = ['a','b']`. -/
def splitChars (sep : Char) : List Char → List (List Char)
  | [] => [[]]
  | c :: cs =>
    match splitChars sep cs with
    | [] => if c = sep then [[], []] else [[c]]
    | h :: t => if c = sep then [] :: h :: t else (c :: h) :: t

/-- JS `str.split(sep)` lifted to `String`. -/
def jsSplit (s : String) (sep : Char) : List String :=
  (splitChars sep s.data).map String.mk

/-- `path.delimiter` on POSIX. -/
def pathDelimiter : Char := ':'

/-- JS template-literal rendering of a possibly-undefined string
(`${env.PATH}` prints `undefined` when the variable is unset). -/
def jsTemplate : Option String → String
  | some s => s
  | Option.none => "undefined"

/-- Embedding of `getEnvWithBunx()`.  The identical function appears in
both `scripts/dev.ts` (lines 60-102) and `scripts/build.ts` (lines
30-72); this single definition embeds both copies.  `procEnv` is the
inherited `process.env`, `execPath` is `process.execPath`, and `fsys`
answers the filesystem calls.  Returns the augmented environment together
with the filesystem side effects performed. -/
def getEnvWithBunx (fsys : FsOracle) (procEnv : Env) (execPath : String) :
    Env × FsEffects :=
  -- env.NODE_OPTIONS = `${env.NODE_OPTIONS || ''} --no-deprecation`.trim()
  -- env.NX_TERMINAL_OUTPUT_FORMAT = 'text'; env.NX_NATIVE_LOGGING = 'false'
  let env : Env :=
    { procEnv with
      NODE_OPTIONS :=
        some (jsTrim ((procEnv.NODE_OPTIONS.getD "") ++ " --no-deprecation")),
      NX_TERMINAL_OUTPUT_FORMAT := some "text",
      NX_NATIVE_LOGGING := some "false" }
  -- const pathDirs = (env.PATH || '').split(path.delimiter)
  let pathDirs := jsSplit (env.PATH.getD "") pathDelimiter
  -- const bunxExists = pathDirs.some(dir => ...)
  let bunxExists := pathDirs.any fsys.existsBunx
  if bunxExists then (env, FsEffects.empty)
  else
    match fsys.mkdtemp with
    | Option.none =>
      -- mkdtempSync threw: caught, warning printed, env returned as-is
      (env, ⟨[], [], 0, 1⟩)
    | some tmpDir =>
      if fsys.symlinkOk then
        -- env.PATH = `${tmpDir}${path.delimiter}${env.PATH}`
        ({ env with
           PATH := some (tmpDir ++ String.mk [pathDelimiter] ++
             jsTemplate env.PATH) },
         ⟨[tmpDir], [(tmpDir ++ "/bunx", execPath)], 1, 0⟩)
      else
        -- symlinkSync threw after the directory was created: caught,
        -- warning printed, env returned without the PATH prepend
        (env, ⟨[tmpDir], [], 0, 1⟩)

/-- The lifecycle event of a spawned child that settles the launcher
promise: either the `error` event (the child could not be started) or the
`exit` event with its code (`Option.none` is JS `null`, a
signal-terminated child). -/
inductive ChildEvent where
  | spawnError (err : String)
  | exited (code : Option Int)
deriving Repr, DecidableEq

/-- How the promise returned by `launchApp` / `runBuild` settles. -/
inductive LaunchResult where
  | resolved
  | rejectedExit (msg : String)
  | rejectedSpawn (err : String)
deriving Repr, DecidableEq

/-- JS template-literal rendering of the exit code (`null` for a
signal-terminated child). -/
def jsCodeString : Option Int → String
  | some n => toString n
  | Option.none => "null"

/-- Promise settlement of `launchApp` (`scripts/dev.ts` lines 119-130):
`error` event rejects with the spawn error; `exit` with `code !== 0`
rejects with `new Error(app + " exited with code " + code)`; `exit` with
code `0` resolves. -/
def launchAppSettle (app : String) (ev : ChildEvent) : LaunchResult :=
  match ev with
  | ChildEvent.spawnError err => LaunchResult.rejectedSpawn err
  | ChildEvent.exited code =>
    if code ≠ some 0 then
      LaunchResult.rejectedExit (app ++ " exited with code " ++
        jsCodeString code)
    else LaunchResult.resolved

/-- Promise settlement of `runBuild` (`scripts/build.ts` lines 87-99),
identical except for the error message text. -/
def runBuildSettle (target : String) (ev : ChildEvent) : LaunchResult :=
  match ev with
  | ChildEvent.spawnError err => LaunchResult.rejectedSpawn err
  | ChildEvent.exited code =>
    if code ≠ some 0 then
      LaunchResult.rejectedExit (target ++ " build exited with code " ++
        jsCodeString code)
    else LaunchResult.resolved

/-- The `spawn` call made by a launcher: executable, argument vector and
child environment. -/
structure SpawnRecord where
  cmd : String
  args : List String
  env : Env
deriving Repr, DecidableEq

/-- `const command = production ? 'build' : 'dev'` in `launchApp`. -/
def launchCommand (production : Bool) : String :=
  if production then "build" else "dev"

/-- Embedding of `launchApp(app, production)` (`scripts/dev.ts` lines
105-138): builds the child environment via `getEnvWithBunx`, spawns
`bun x nx <command> <app>`, and settles per the child event. -/
def launchApp (app : String) (production : Bool) (fsys : FsOracle)
    (procEnv : Env) (execPath : String) (ev : ChildEvent) :
    SpawnRecord × FsEffects × LaunchResult :=
  let command := launchCommand production
  let r := getEnvWithBunx fsys procEnv execPath
  (⟨"bun", ["x", "nx", command, app], r.1⟩, r.2, launchAppSettle app ev)

/-- Embedding of `runBuild(target)` (`scripts/build.ts` lines 74-101):
spawns `bun x nx build <target>` with the resolved environment plus
`FORCE_COLOR=1`, and settles per the child event. -/
def runBuild (target : String) (fsys : FsOracle) (procEnv : Env)
    (execPath : String) (ev : ChildEvent) :
    SpawnRecord × FsEffects × LaunchResult :=
  let r := getEnvWithBunx fsys procEnv execPath
  (⟨"bun", ["x", "nx", "build", target], { r.1 with FORCE_COLOR := some "1" }⟩,
   r.2, runBuildSettle target ev)

/-- The `SetupValidation` verdict shape returned by the external
`validateSetupConfiguration()` collaborator. -/
structure SetupValidation where
  complete : Bool
  reason : Option String
  missingFields : List String
  warnings : List String
deriving Repr, DecidableEq

/-- One observable step of the dev orchestrator: the validator call or the
launch of a target with a given subcommand. -/
inductive DevAction where
  | validatorCalled
  | launch (app : String) (command : String)
deriving Repr, DecidableEq

/-- Whether a `DevAction` is the validator call. -/
def DevAction.isValidatorCall : DevAction → Bool
  | DevAction.validatorCalled => true
  | _ => false

/-- The observable outcome of one dev-script run. -/
structure DevRun where
  actions : List DevAction
  effects : FsEffects
  exitCode : Nat
deriving Repr, DecidableEq

/-- Exit status of the dev script given how the single launch settled: the
top-level `catch` turns any rejection into `process.exit(1)`; a resolved
launch lets the process end with status 0. -/
def devExit : LaunchResult → Nat
  | LaunchResult.resolved => 0
  | LaunchResult.rejectedExit _ => 1
  | LaunchResult.rejectedSpawn _ => 1

/-- Embedding of `main()` in `scripts/dev.ts` (lines 141-188) together
with the top-level flag parsing (lines 23-26).  `args` is
`process.argv.slice(2)`; `verdict` is what `validateSetupConfiguration()`
returns when it is called; `fsys`, `procEnv`, `execPath` drive the single
`getEnvWithBunx` call; `ev` settles the single spawned child. -/
def devMain (args : List String) (verdict : SetupValidation)
    (fsys : FsOracle) (procEnv : Env) (execPath : String)
    (ev : ChildEvent) : DevRun :=
  let forceSetup := args.contains "--setup"
  let forceCms := args.contains "--cms"
  let isProduction := args.contains "--prod" || args.contains "--production"
  if forceSetup then
    let r := launchApp "setup-wizard" isProduction fsys procEnv execPath ev
    ⟨[DevAction.launch "setup-wizard" (launchCommand isProduction)],
     r.2.1, devExit r.2.2⟩
  else if forceCms then
    let r := launchApp "cms" isProduction fsys procEnv execPath ev
    ⟨[DevAction.launch "cms" (launchCommand isProduction)],
     r.2.1, devExit r.2.2⟩
  else if verdict.complete = false then
    let r := launchApp "setup-wizard" isProduction fsys procEnv execPath ev
    ⟨[DevAction.validatorCalled,
      DevAction.launch "setup-wizard" (launchCommand isProduction)],
     r.2.1, devExit r.2.2⟩
  else
    let r := launchApp "cms" isProduction fsys procEnv execPath ev
    ⟨[DevAction.validatorCalled,
      DevAction.launch "cms" (launchCommand isProduction)],
     r.2.1, devExit r.2.2⟩

/-- The observable outcome of one build-script run: which targets had a
build started (in order), the accumulated filesystem effects, and the
process exit status. -/
structure BuildRun where
  started : List String
  effects : FsEffects
  exitCode : Nat
deriving Repr, DecidableEq

/-- Embedding of `main()` in `scripts/build.ts` (lines 103-120) together
with the flag parsing (lines 11-12).  `fs1`/`ev1` drive the first
`runBuild` call and `fs2`/`ev2` the second (which only happens under
`--all` after the first resolves); both calls clone the same unchanged
`process.env`. -/
def buildMain (args : List String) (fs1 fs2 : FsOracle) (procEnv : Env)
    (execPath : String) (ev1 ev2 : ChildEvent) : BuildRun :=
  let buildAll := args.contains "--all"
  if buildAll then
    let r1 := runBuild "setup-wizard" fs1 procEnv execPath ev1
    match r1.2.2 with
    | LaunchResult.resolved =>
      let r2 := runBuild "cms" fs2 procEnv execPath ev2
      match r2.2.2 with
      | LaunchResult.resolved =>
        ⟨["setup-wizard", "cms"], r1.2.1.append r2.2.1, 0⟩
      | _ => ⟨["setup-wizard", "cms"], r1.2.1.append r2.2.1, 1⟩
    | _ => ⟨["setup-wizard"], r1.2.1, 1⟩
  else
    let r := runBuild "cms" fs1 procEnv execPath ev1
    match r.2.2 with
    | LaunchResult.resolved => ⟨["cms"], r.2.1, 0⟩
    | _ => ⟨["cms"], r.2.1, 1⟩

/-- Targets launched by a dev run, in order. -/
def launchedApps (acts : List DevAction) : List String :=
  acts.filterMap fun a =>
    match a with
    | DevAction.launch app _ => some app
    | _ => Option.none

/-- Subcommands used by the launches of a dev run, in order. -/
def launchedCommands (acts : List DevAction) : List String :=
  acts.filterMap fun a =>
    match a with
    | DevAction.launch _ c => some c
    | _ => Option.none

/-- Number of validator invocations in a dev run. -/
def validatorCalls (acts : List DevAction) : Nat :=
  acts.countP DevAction.isValidatorCall

/-- Whether the scan of the path list finds the `bunx` alias: the
condition computed at `scripts/dev.ts` lines 69-76 (`pathDirs.some(...)`). -/
def bunxFound (fsys : FsOracle) (procEnv : Env) : Bool :=
  (jsSplit (procEnv.PATH.getD "") pathDelimiter).any fsys.existsBunx

/-- A complete verdict with no warnings. -/
def sampleVerdict : SetupValidation := ⟨true, Option.none, [], []⟩

/-- The incomplete verdict from the spec scenario in section 8. -/
def sampleVerdictIncomplete : SetupValidation :=
  ⟨false, some "Missing database URL", ["DB_URL"], []⟩

/-- A filesystem where every path directory contains `bunx`. -/
def sampleFs : FsOracle := ⟨fun _ => true, Option.none, false⟩

/-- A filesystem where the alias is absent and `mkdtempSync` throws. -/
def shimFailFs : FsOracle := ⟨fun _ => false, Option.none, true⟩

/-- A filesystem where the alias is absent and shim creation succeeds,
yielding the first unique temporary directory name. -/
def absentFs1 : FsOracle := ⟨fun _ => false, some "/tmp/sveltycms-bunx-aaa", true⟩

/-- A filesystem where the alias is absent and shim creation succeeds,
yielding a second unique temporary directory name. -/
def absentFs2 : FsOracle := ⟨fun _ => false, some "/tmp/sveltycms-bunx-bbb", true⟩

/-- A small inherited environment for concrete runs. -/
def sampleEnv : Env :=
  ⟨Option.none, Option.none, Option.none, some "/usr/bin", Option.none, []⟩

end SveltyCMS

namespace SveltyCMS

lemma suffix_dropWhile_no_deprecation (l : List Char) :
    ("--no-deprecation").data <:+
      (l ++ (" --no-deprecation").data).dropWhile Char.isWhitespace := by
  induction l with
  | nil => decide
  | cons c l ih =>
    by_cases h : Char.isWhitespace c
    · simpa [List.dropWhile_cons, h] using ih
    · rw [List.cons_append, List.dropWhile_cons, if_neg (by simp [h])]
      refine List.IsSuffix.trans ?_ (List.suffix_cons c _)
      refine List.IsSuffix.trans ?_ (List.suffix_append l _)
      exact ⟨[' '], rfl⟩

lemma dropWhileRight_of_suffix (d : List Char)
    (h : ("--no-deprecation").data <:+ d) :
    (d.reverse.dropWhile Char.isWhitespace).reverse = d := by
  obtain ⟨u, rfl⟩ := h
  have h1 : ("--no-deprecation").data.reverse =
      'n' :: ("--no-deprecatio").data.reverse := by decide
  rw [List.reverse_append, h1, List.cons_append, List.dropWhile_cons,
    if_neg (by decide)]
  rw [← List.cons_append, ← h1, ← List.reverse_append, List.reverse_reverse]

lemma jsTrim_append_no_deprecation (s : String) :
    ∃ pre : String,
      jsTrim (s ++ " --no-deprecation") = pre ++ "--no-deprecation" := by
  obtain ⟨u, hu⟩ := suffix_dropWhile_no_deprecation s.data
  refine ⟨String.mk u, String.ext ?_⟩
  show ((((s ++ " --no-deprecation").data).dropWhile
      Char.isWhitespace).reverse.dropWhile Char.isWhitespace).reverse = _
  rw [String.data_append,
    dropWhileRight_of_suffix _ (suffix_dropWhile_no_deprecation s.data),
    ← hu, String.data_append]

lemma getEnvWithBunx_base (fsys : FsOracle) (procEnv : Env) (execPath : String) :
    (getEnvWithBunx fsys procEnv execPath).1.NODE_OPTIONS =
      some (jsTrim ((procEnv.NODE_OPTIONS.getD "") ++ " --no-deprecation"))
    ∧ (getEnvWithBunx fsys procEnv execPath).1.NX_TERMINAL_OUTPUT_FORMAT = some "text"
    ∧ (getEnvWithBunx fsys procEnv execPath).1.NX_NATIVE_LOGGING = some "false"
    ∧ (getEnvWithBunx fsys procEnv execPath).1.FORCE_COLOR = procEnv.FORCE_COLOR
    ∧ (getEnvWithBunx fsys procEnv execPath).1.rest = procEnv.rest := by
  unfold getEnvWithBunx
  dsimp only
  split
  · exact ⟨rfl, rfl, rfl, rfl, rfl⟩
  · split
    · exact ⟨rfl, rfl, rfl, rfl, rfl⟩
    · split
      · exact ⟨rfl, rfl, rfl, rfl, rfl⟩
      · exact ⟨rfl, rfl, rfl, rfl, rfl⟩

lemma getEnvWithBunx_found (fsys : FsOracle) (procEnv : Env) (execPath : String)
    (h : bunxFound fsys procEnv = true) :
    getEnvWithBunx fsys procEnv execPath =
      ({ procEnv with
         NODE_OPTIONS :=
           some (jsTrim ((procEnv.NODE_OPTIONS.getD "") ++ " --no-deprecation")),
         NX_TERMINAL_OUTPUT_FORMAT := some "text",
         NX_NATIVE_LOGGING := some "false" }, FsEffects.empty) := by
  unfold bunxFound at h
  unfold getEnvWithBunx
  dsimp only
  rw [if_pos h]

lemma getEnvWithBunx_tmpdirs_le_one (fsys : FsOracle) (procEnv : Env)
    (execPath : String) :
    (getEnvWithBunx fsys procEnv execPath).2.tmpDirsCreated.length ≤ 1 := by
  unfold getEnvWithBunx
  dsimp only
  split
  · simp [FsEffects.empty]
  · split
    · simp
    · split <;> simp

lemma getEnvWithBunx_not_found_fail (fsys : FsOracle) (procEnv : Env)
    (execPath : String)
    (habs : bunxFound fsys procEnv = false)
    (hfail : fsys.mkdtemp = Option.none ∨ fsys.symlinkOk = false) :
    (getEnvWithBunx fsys procEnv execPath).1 =
      { procEnv with
        NODE_OPTIONS :=
          some (jsTrim ((procEnv.NODE_OPTIONS.getD "") ++ " --no-deprecation")),
        NX_TERMINAL_OUTPUT_FORMAT := some "text",
        NX_NATIVE_LOGGING := some "false" }
    ∧ (getEnvWithBunx fsys procEnv execPath).2.shimWarnings = 1
    ∧ (getEnvWithBunx fsys procEnv execPath).2.exitHooksRegistered = 0
    ∧ (getEnvWithBunx fsys procEnv execPath).2.symlinksCreated = [] := by
  unfold bunxFound at habs
  unfold getEnvWithBunx
  dsimp only
  rw [if_neg (by simp [habs])]
  rcases hfail with h | h
  · rw [h]
    exact ⟨rfl, rfl, rfl, rfl⟩
  · cases hm : fsys.mkdtemp with
    | none => exact ⟨rfl, rfl, rfl, rfl⟩
    | some t =>
      dsimp only
      rw [if_neg (by simp [h])]
      exact ⟨rfl, rfl, rfl, rfl⟩

end SveltyCMS

namespace SveltyCMS

/-- C1 counterexample: with the argument list `["--cms", "--setup"]`, where
`--cms` is listed first on the command line, the dev script still launches
the setup-wizard and never the cms, because `main` tests `forceSetup`
before `forceCms` irrespective of argument order.  This refutes the claim
that the first-listed flag wins. -/
theorem dev_cms_before_setup_launches_wizard :
    launchedApps (devMain ["--cms", "--setup"] sampleVerdict sampleFs
      sampleEnv "/bin/bun" (ChildEvent.exited (some 0))).actions =
      ["setup-wizard"]
    ∧ "cms" ∉ launchedApps (devMain ["--cms", "--setup"] sampleVerdict
      sampleFs sampleEnv "/bin/bun" (ChildEvent.exited (some 0))).actions := by
  decide

/-- C1 (amended): whenever `--setup` is among the arguments, the dev script
launches the setup-wizard and skips validation, regardless of whether and
where `--cms` also appears: `--setup` always takes priority. -/
theorem dev_setup_flag_always_wins (args : List String)
    (verdict : SetupValidation) (fsys : FsOracle) (procEnv : Env)
    (execPath : String) (ev : ChildEvent)
    (hs : args.contains "--setup" = true)
    (_hc : args.contains "--cms" = true) :
    launchedApps (devMain args verdict fsys procEnv execPath ev).actions =
      ["setup-wizard"]
    ∧ validatorCalls (devMain args verdict fsys procEnv execPath ev).actions
        = 0 := by
  have hs2 : "--setup" ∈ args := by simpa using hs
  simp [devMain, hs2, launchedApps, validatorCalls, DevAction.isValidatorCall,
    List.countP_cons]

/-- C1 witness: concrete run with both force flags, `--setup` listed
first. -/
theorem dev_setup_flag_always_wins_witness :
    (["--setup", "--cms"].contains "--setup" = true)
    ∧ (["--setup", "--cms"].contains "--cms" = true)
    ∧ launchedApps (devMain ["--setup", "--cms"] sampleVerdict sampleFs
        sampleEnv "/bin/bun" (ChildEvent.exited (some 0))).actions =
        ["setup-wizard"] :=
  ⟨by decide, by decide,
    (dev_setup_flag_always_wins ["--setup", "--cms"] sampleVerdict sampleFs
      sampleEnv "/bin/bun" (ChildEvent.exited (some 0)) (by decide)
      (by decide)).1⟩

end SveltyCMS

namespace SveltyCMS

/-- C2 counterexample: a build-script run with `--all`, with the `bunx`
alias absent from every PATH directory and shim creation succeeding,
creates two temporary shim directories (one per `runBuild` call), not one:
each `runBuild` clones the unchanged `process.env` and re-runs the scan,
so the second build does not see the first build's shim. -/
theorem build_all_creates_two_shim_dirs :
    (buildMain ["--all"] absentFs1 absentFs2 sampleEnv "/bin/bun"
      (ChildEvent.exited (some 0)) (ChildEvent.exited (some 0))).effects.tmpDirsCreated.length = 2
    ∧ ¬ (buildMain ["--all"] absentFs1 absentFs2 sampleEnv "/bin/bun"
      (ChildEvent.exited (some 0)) (ChildEvent.exited (some 0))).effects.tmpDirsCreated.length ≤ 1 := by
  decide

/-- C2 (amended): each environment-resolver call creates at most one shim
directory, so a dev-script run creates at most one and a build-script run
without `--all` creates at most one; but a build-script run with `--all`
in which the alias is absent from every PATH directory, directory creation
succeeds in both calls, and the first build succeeds creates exactly two
temporary directories, one per build. -/
theorem shim_dir_count_per_run :
    (∀ (args : List String) (verdict : SetupValidation) (fsys : FsOracle)
        (procEnv : Env) (execPath : String) (ev : ChildEvent),
      (devMain args verdict fsys procEnv execPath ev).effects.tmpDirsCreated.length ≤ 1)
  ∧ (∀ (args : List String) (fs1 fs2 : FsOracle) (procEnv : Env)
        (execPath : String) (ev1 ev2 : ChildEvent),
      args.contains "--all" = false →
      (buildMain args fs1 fs2 procEnv execPath ev1 ev2).effects.tmpDirsCreated.length ≤ 1)
  ∧ (∀ (fs1 fs2 : FsOracle) (procEnv : Env) (execPath : String)
        (ev1 ev2 : ChildEvent),
      bunxFound fs1 procEnv = false → bunxFound fs2 procEnv = false →
      fs1.mkdtemp.isSome = true → fs2.mkdtemp.isSome = true →
      runBuildSettle "setup-wizard" ev1 = LaunchResult.resolved →
      (buildMain ["--all"] fs1 fs2 procEnv execPath ev1 ev2).effects.tmpDirsCreated.length = 2) := by
  refine ⟨fun args verdict fsys procEnv execPath ev => ?_,
    fun args fs1 fs2 procEnv execPath ev1 ev2 hall => ?_,
    fun fs1 fs2 procEnv execPath ev1 ev2 hb1 hb2 hm1 hm2 hok => ?_⟩
  · have hle := getEnvWithBunx_tmpdirs_le_one fsys procEnv execPath
    unfold devMain launchApp
    dsimp only
    split
    · exact hle
    · split
      · exact hle
      · split
        · exact hle
        · exact hle
  · have hall2 : "--all" ∉ args := by simpa using hall
    have hle := getEnvWithBunx_tmpdirs_le_one fs1 procEnv execPath
    unfold buildMain runBuild
    dsimp only
    rw [if_neg (by simpa using hall2)]
    split
    · exact hle
    · exact hle
  · have hone : ∀ fsys : FsOracle, bunxFound fsys procEnv = false →
        fsys.mkdtemp.isSome = true →
        (getEnvWithBunx fsys procEnv execPath).2.tmpDirsCreated.length = 1 := by
      intro fsys hb hm
      unfold bunxFound at hb
      unfold getEnvWithBunx
      dsimp only
      rw [if_neg (by simp [hb])]
      cases hmk : fsys.mkdtemp with
      | none => rw [hmk] at hm; simp at hm
      | some t =>
        dsimp only
        split <;> rfl
    have hr1 : (runBuild "setup-wizard" fs1 procEnv execPath ev1).2.2 =
        LaunchResult.resolved := hok
    unfold buildMain
    dsimp only
    rw [if_pos (by decide)]
    rw [hr1]
    have heff : ∀ target : String, ∀ fsys : FsOracle, ∀ ev : ChildEvent,
        (runBuild target fsys procEnv execPath ev).2.1 =
          (getEnvWithBunx fsys procEnv execPath).2 := fun _ _ _ => rfl
    cases (runBuild "cms" fs2 procEnv execPath ev2).2.2 <;>
      · dsimp only
        rw [heff, heff]
        unfold FsEffects.append
        dsimp only
        rw [List.length_append, hone fs1 hb1 hm1, hone fs2 hb2 hm2]

/-- C2 witness: concrete `--all` run with the alias absent, applying the
exactly-two part of the amended claim. -/
theorem shim_dir_count_per_run_witness :
    bunxFound absentFs1 sampleEnv = false
    ∧ bunxFound absentFs2 sampleEnv = false
    ∧ absentFs1.mkdtemp.isSome = true
    ∧ absentFs2.mkdtemp.isSome = true
    ∧ runBuildSettle "setup-wizard" (ChildEvent.exited (some 0)) =
        LaunchResult.resolved
    ∧ (buildMain ["--all"] absentFs1 absentFs2 sampleEnv "/bin/bun"
        (ChildEvent.exited (some 0)) (ChildEvent.exited (some 0))).effects.tmpDirsCreated.length = 2 :=
  ⟨by decide, by decide, by decide, by decide, by decide,
    shim_dir_count_per_run.2.2 absentFs1 absentFs2 sampleEnv "/bin/bun"
      (ChildEvent.exited (some 0)) (ChildEvent.exited (some 0))
      (by decide) (by decide) (by decide) (by decide) (by decide)⟩

end SveltyCMS

namespace SveltyCMS

/-- C3: the dev orchestrator evaluates its branches in strict priority
order: with `--setup` the validator is never invoked and the setup-wizard
launches; otherwise with `--cms` the validator is never invoked and the
cms launches; otherwise the validator is invoked exactly once and the
verdict's `complete` field selects the setup-wizard (false) or the cms
(true). -/
theorem dev_branch_priority (args : List String) (verdict : SetupValidation)
    (fsys : FsOracle) (procEnv : Env) (execPath : String) (ev : ChildEvent) :
    (args.contains "--setup" = true →
      validatorCalls (devMain args verdict fsys procEnv execPath ev).actions = 0
      ∧ launchedApps (devMain args verdict fsys procEnv execPath ev).actions =
          ["setup-wizard"])
  ∧ (args.contains "--setup" = false → args.contains "--cms" = true →
      validatorCalls (devMain args verdict fsys procEnv execPath ev).actions = 0
      ∧ launchedApps (devMain args verdict fsys procEnv execPath ev).actions =
          ["cms"])
  ∧ (args.contains "--setup" = false → args.contains "--cms" = false →
      validatorCalls (devMain args verdict fsys procEnv execPath ev).actions = 1
      ∧ launchedApps (devMain args verdict fsys procEnv execPath ev).actions =
          [if verdict.complete then "cms" else "setup-wizard"]) := by
  refine ⟨fun hs => ?_, fun hs hc => ?_, fun hs hc => ?_⟩
  · have hs2 : "--setup" ∈ args := by simpa using hs
    simp [devMain, hs2, launchedApps, validatorCalls, DevAction.isValidatorCall,
      List.countP_cons]
  · have hs2 : "--setup" ∉ args := by simpa using hs
    have hc2 : "--cms" ∈ args := by simpa using hc
    simp [devMain, hs2, hc2, launchedApps, validatorCalls,
      DevAction.isValidatorCall, List.countP_cons]
  · have hs2 : "--setup" ∉ args := by simpa using hs
    have hc2 : "--cms" ∉ args := by simpa using hc
    cases hcomp : verdict.complete <;>
      simp [devMain, hs2, hc2, hcomp, launchedApps, validatorCalls,
        DevAction.isValidatorCall, List.countP_cons, List.countP_nil]

/-- C3 witness: run with no force flags and an incomplete verdict — the
validator is invoked exactly once and the setup-wizard launches. -/
theorem dev_branch_priority_witness :
    (([] : List String).contains "--setup" = false)
    ∧ (([] : List String).contains "--cms" = false)
    ∧ (validatorCalls (devMain [] sampleVerdictIncomplete sampleFs sampleEnv
        "/bin/bun" (ChildEvent.exited (some 0))).actions = 1
      ∧ launchedApps (devMain [] sampleVerdictIncomplete sampleFs sampleEnv
        "/bin/bun" (ChildEvent.exited (some 0))).actions = ["setup-wizard"]) :=
  ⟨by decide, by decide,
    (dev_branch_priority [] sampleVerdictIncomplete sampleFs sampleEnv
      "/bin/bun" (ChildEvent.exited (some 0))).2.2 (by decide) (by decide)⟩

/-- C4: under `--all`, the build script starts the setup-wizard build
first; the cms build starts exactly when the setup-wizard build resolves;
and if the setup-wizard build fails, the cms build is never started and
the process exits with status 1. -/
theorem build_all_sequential_ordering (args : List String) (fs1 fs2 : FsOracle)
    (procEnv : Env) (execPath : String) (ev1 ev2 : ChildEvent)
    (h : args.contains "--all" = true) :
    (buildMain args fs1 fs2 procEnv execPath ev1 ev2).started.head? =
      some "setup-wizard"
    ∧ (runBuildSettle "setup-wizard" ev1 = LaunchResult.resolved →
        (buildMain args fs1 fs2 procEnv execPath ev1 ev2).started =
          ["setup-wizard", "cms"])
    ∧ (runBuildSettle "setup-wizard" ev1 ≠ LaunchResult.resolved →
        (buildMain args fs1 fs2 procEnv execPath ev1 ev2).started =
          ["setup-wizard"]
        ∧ (buildMain args fs1 fs2 procEnv execPath ev1 ev2).exitCode = 1) := by
  have h2 : "--all" ∈ args := by simpa using h
  refine ⟨?_, fun hok => ?_, fun hfail => ?_⟩
  · unfold buildMain runBuild
    dsimp only
    rw [if_pos (by simpa using h2)]
    split <;> first | rfl | (split <;> rfl)
  · unfold buildMain
    dsimp only
    rw [if_pos (by simpa using h2)]
    have hr1 : (runBuild "setup-wizard" fs1 procEnv execPath ev1).2.2 =
        LaunchResult.resolved := hok
    rw [hr1]
    cases (runBuild "cms" fs2 procEnv execPath ev2).2.2 <;> rfl
  · unfold buildMain
    dsimp only
    rw [if_pos (by simpa using h2)]
    have hne : (runBuild "setup-wizard" fs1 procEnv execPath ev1).2.2 =
        runBuildSettle "setup-wizard" ev1 := rfl
    rw [hne]
    cases hres : runBuildSettle "setup-wizard" ev1 with
    | resolved => exact absurd hres hfail
    | rejectedExit m => exact ⟨rfl, rfl⟩
    | rejectedSpawn e => exact ⟨rfl, rfl⟩

/-- C4 witness: concrete `--all` run whose setup-wizard build exits with
code 1 — only the setup-wizard build is started and the process exits 1. -/
theorem build_all_sequential_ordering_witness :
    (["--all"].contains "--all" = true)
    ∧ runBuildSettle "setup-wizard" (ChildEvent.exited (some 1)) ≠
        LaunchResult.resolved
    ∧ ((buildMain ["--all"] sampleFs sampleFs sampleEnv "/bin/bun"
        (ChildEvent.exited (some 1)) (ChildEvent.exited (some 0))).started =
        ["setup-wizard"]
      ∧ (buildMain ["--all"] sampleFs sampleFs sampleEnv "/bin/bun"
        (ChildEvent.exited (some 1)) (ChildEvent.exited (some 0))).exitCode = 1) :=
  ⟨by decide, by decide,
    (build_all_sequential_ordering ["--all"] sampleFs sampleFs sampleEnv
      "/bin/bun" (ChildEvent.exited (some 1)) (ChildEvent.exited (some 0))
      (by decide)).2.2 (by decide)⟩

end SveltyCMS

namespace SveltyCMS

/-- C5: the launcher promise (both `launchApp` and `runBuild`) resolves
exactly when the child exits with status code 0, rejects with an error
message carrying the non-zero exit code when the child exits non-zero,
and rejects with the spawn error itself when the child could not be
started. -/
theorem launcher_promise_contract (app target err : String) (ev : ChildEvent)
    (n : Int) :
    (launchAppSettle app ev = LaunchResult.resolved ↔
      ev = ChildEvent.exited (some 0))
  ∧ (runBuildSettle target ev = LaunchResult.resolved ↔
      ev = ChildEvent.exited (some 0))
  ∧ (n ≠ 0 → launchAppSettle app (ChildEvent.exited (some n)) =
      LaunchResult.rejectedExit (app ++ " exited with code " ++ toString n))
  ∧ (n ≠ 0 → runBuildSettle target (ChildEvent.exited (some n)) =
      LaunchResult.rejectedExit
        (target ++ " build exited with code " ++ toString n))
  ∧ launchAppSettle app (ChildEvent.spawnError err) =
      LaunchResult.rejectedSpawn err
  ∧ runBuildSettle target (ChildEvent.spawnError err) =
      LaunchResult.rejectedSpawn err := by
  refine ⟨?_, ?_, fun hn => ?_, fun hn => ?_, rfl, rfl⟩
  · cases ev with
    | spawnError e => simp [launchAppSettle]
    | exited code =>
      by_cases hcode : code = some 0 <;> simp [launchAppSettle, hcode]
  · cases ev with
    | spawnError e => simp [runBuildSettle]
    | exited code =>
      by_cases hcode : code = some 0 <;> simp [runBuildSettle, hcode]
  · simp [launchAppSettle, jsCodeString, hn]
  · simp [runBuildSettle, jsCodeString, hn]

/-- C5 witness: a child exiting with code 1 makes `launchApp` reject with
a message carrying the code. -/
theorem launcher_promise_contract_witness :
    (1 : Int) ≠ 0
    ∧ launchAppSettle "cms" (ChildEvent.exited (some 1)) =
        LaunchResult.rejectedExit "cms exited with code 1" :=
  ⟨by decide,
    (launcher_promise_contract "cms" "cms" "spawn ENOENT"
      (ChildEvent.exited (some 1)) 1).2.2.1 (by decide)⟩

/-- C6: the `--prod`/`--production` flag selects the `build` subcommand
and its absence selects `dev`, in every branch of the dev orchestrator,
independently of which target is chosen. -/
theorem dev_mode_flag_selects_subcommand (args : List String)
    (verdict : SetupValidation) (fsys : FsOracle) (procEnv : Env)
    (execPath : String) (ev : ChildEvent) :
    launchedCommands (devMain args verdict fsys procEnv execPath ev).actions =
      [if args.contains "--prod" || args.contains "--production" then "build"
       else "dev"] := by
  by_cases hs : "--setup" ∈ args
  · simp [devMain, hs, launchedCommands, launchCommand]
  · by_cases hc : "--cms" ∈ args
    · simp [devMain, hs, hc, launchedCommands, launchCommand]
    · cases hcomp : verdict.complete <;>
        simp [devMain, hs, hc, hcomp, launchedCommands, launchCommand]

end SveltyCMS

namespace SveltyCMS

/-- C7: when the alias is absent and temporary-directory or symlink
creation fails, `getEnvWithBunx` logs one warning and returns the
environment augmented only with the step 2-3 overrides — PATH and every
other variable are unchanged, no symlink is placed on the environment and
no exit hook is registered.  (The function is total: no error is
propagated to the caller.) -/
theorem env_resolver_degrades_on_failure (fsys : FsOracle) (procEnv : Env)
    (execPath : String)
    (habs : bunxFound fsys procEnv = false)
    (hfail : fsys.mkdtemp = Option.none ∨ fsys.symlinkOk = false) :
    (getEnvWithBunx fsys procEnv execPath).1.PATH = procEnv.PATH
    ∧ (getEnvWithBunx fsys procEnv execPath).1.NODE_OPTIONS =
        some (jsTrim ((procEnv.NODE_OPTIONS.getD "") ++ " --no-deprecation"))
    ∧ (getEnvWithBunx fsys procEnv execPath).1.NX_TERMINAL_OUTPUT_FORMAT =
        some "text"
    ∧ (getEnvWithBunx fsys procEnv execPath).1.NX_NATIVE_LOGGING = some "false"
    ∧ (getEnvWithBunx fsys procEnv execPath).1.FORCE_COLOR = procEnv.FORCE_COLOR
    ∧ (getEnvWithBunx fsys procEnv execPath).1.rest = procEnv.rest
    ∧ (getEnvWithBunx fsys procEnv execPath).2.shimWarnings = 1
    ∧ (getEnvWithBunx fsys procEnv execPath).2.symlinksCreated = []
    ∧ (getEnvWithBunx fsys procEnv execPath).2.exitHooksRegistered = 0 := by
  have h := getEnvWithBunx_not_found_fail fsys procEnv execPath habs hfail
  refine ⟨?_, ?_, ?_, ?_, ?_, ?_, h.2.1, h.2.2.2, h.2.2.1⟩ <;>
    rw [h.1]

/-- C7 witness: `mkdtempSync` throwing with the alias absent — PATH comes
back unchanged. -/
theorem env_resolver_degrades_on_failure_witness :
    bunxFound shimFailFs sampleEnv = false
    ∧ (shimFailFs.mkdtemp = Option.none ∨ shimFailFs.symlinkOk = false)
    ∧ (getEnvWithBunx shimFailFs sampleEnv "/bin/bun").1.PATH = sampleEnv.PATH :=
  ⟨by decide, Or.inl rfl,
    (env_resolver_degrades_on_failure shimFailFs sampleEnv "/bin/bun"
      (by decide) (Or.inl rfl)).1⟩

/-- C8: when some PATH directory contains an entry named `bunx`, the
resolver performs no filesystem side effect at all and returns the
inherited environment changed only by the step 2-3 overrides; in
particular PATH is unchanged. -/
theorem env_resolver_no_effect_when_alias_present (fsys : FsOracle)
    (procEnv : Env) (execPath : String)
    (hfound : bunxFound fsys procEnv = true) :
    (getEnvWithBunx fsys procEnv execPath).2 = FsEffects.empty
    ∧ (getEnvWithBunx fsys procEnv execPath).1 =
        { procEnv with
          NODE_OPTIONS :=
            some (jsTrim ((procEnv.NODE_OPTIONS.getD "") ++ " --no-deprecation")),
          NX_TERMINAL_OUTPUT_FORMAT := some "text",
          NX_NATIVE_LOGGING := some "false" }
    ∧ (getEnvWithBunx fsys procEnv execPath).1.PATH = procEnv.PATH := by
  have h := getEnvWithBunx_found fsys procEnv execPath hfound
  refine ⟨?_, ?_, ?_⟩ <;> rw [h]

/-- C8 witness: with `bunx` present in every PATH directory, the resolver
performs no filesystem side effect. -/
theorem env_resolver_no_effect_when_alias_present_witness :
    bunxFound sampleFs sampleEnv = true
    ∧ (getEnvWithBunx sampleFs sampleEnv "/bin/bun").2 = FsEffects.empty :=
  ⟨by decide,
    (env_resolver_no_effect_when_alias_present sampleFs sampleEnv "/bin/bun"
      (by decide)).1⟩

/-- C9: every `getEnvWithBunx` call — shim needed or not, creation
succeeding or not — returns an environment whose
`NX_TERMINAL_OUTPUT_FORMAT` is `text`, whose `NX_NATIVE_LOGGING` is
`false`, and whose `NODE_OPTIONS` ends with the appended
`--no-deprecation` flag. -/
theorem env_resolver_always_sets_suppression_vars (fsys : FsOracle)
    (procEnv : Env) (execPath : String) :
    (getEnvWithBunx fsys procEnv execPath).1.NX_TERMINAL_OUTPUT_FORMAT =
      some "text"
    ∧ (getEnvWithBunx fsys procEnv execPath).1.NX_NATIVE_LOGGING = some "false"
    ∧ ∃ pre : String,
        (getEnvWithBunx fsys procEnv execPath).1.NODE_OPTIONS =
          some (pre ++ "--no-deprecation") := by
  have h := getEnvWithBunx_base fsys procEnv execPath
  obtain ⟨pre, hpre⟩ :=
    jsTrim_append_no_deprecation (procEnv.NODE_OPTIONS.getD "")
  exact ⟨h.2.1, h.2.2.1, pre, by rw [h.1, hpre]⟩

/-- C10: every exit event whose code is not strictly `0` — including the
`null` code of a signal-terminated child — makes the launcher promise
reject with a message embedding that code value, and resolution occurs
only for code exactly `0` (both `launchApp` and `runBuild`). -/
theorem exit_code_rejection_contract (app target : String) (code : Option Int)
    (h : code ≠ some 0) :
    launchAppSettle app (ChildEvent.exited code) =
      LaunchResult.rejectedExit (app ++ " exited with code " ++
        jsCodeString code)
    ∧ runBuildSettle target (ChildEvent.exited code) =
      LaunchResult.rejectedExit (target ++ " build exited with code " ++
        jsCodeString code)
    ∧ (∀ c : Option Int,
        launchAppSettle app (ChildEvent.exited c) = LaunchResult.resolved →
          c = some 0)
    ∧ (∀ c : Option Int,
        runBuildSettle target (ChildEvent.exited c) = LaunchResult.resolved →
          c = some 0) := by
  refine ⟨by simp [launchAppSettle, h], by simp [runBuildSettle, h],
    fun c hc => ?_, fun c hc => ?_⟩
  · by_contra hne
    simp [launchAppSettle, hne] at hc
  · by_contra hne
    simp [runBuildSettle, hne] at hc

/-- C10 witness: the `null` code of a signal-terminated child rejects with
a message embedding `null`. -/
theorem exit_code_rejection_contract_witness :
    (Option.none : Option Int) ≠ some 0
    ∧ launchAppSettle "cms" (ChildEvent.exited Option.none) =
        LaunchResult.rejectedExit "cms exited with code null" :=
  ⟨by decide,
    (exit_code_rejection_contract "cms" "cms" Option.none (by decide)).1⟩

end SveltyCMS
